import Mathlib

set_option maxRecDepth 8000
set_option linter.unusedVariables false

/-!
Shallow embedding of the media transfer subsystem of the
openclaw-feishu-plugin repository (src/media-tools.ts).  The source file
holds two variants of the tool layer: a newer one (helpers `json` /
`errResult`, pipelines `doUploadImage` .. `doSendFile` and the six
`execute` entry points) and an older one (helper named `error`, pipelines
`doFeishuUploadImage` .. `doFeishuSendFile`).  Both are embedded below;
the older variant lives in the `Old` namespace.

The remote primitives (`uploadImageFeishu`, ... from media.js) are not in
the sources; they are modelled as an oracle record `Client` whose result
shapes follow the specification.  Each pipeline returns the result
envelope together with the list of Transfer Client invocations it
performed, so that "the client was (not) invoked" is expressible.
-/

namespace FeishuMedia

/-- One element of the `content` array of a result envelope:
`\x7b type: "text", text: ... \x7d` in the source. -/
structure TextItem where
  type : String
  text : String
deriving DecidableEq, Repr

/-- A JavaScript value reaching a `catch (err)` handler: either an `Error`
instance carrying a message, or any other thrown value, identified by its
`String(err)` conversion. -/
inductive JsValue where
  | jsError (message : String)
  | other (str : String)
deriving DecidableEq, Repr

/-- Models `err instanceof Error ? err.message : String(err)` from the
`errResult` / `error` helpers. -/
def messageOf : JsValue → String
  | .jsError m => m
  | .other s => s

/-- Modelled from the spec: the `UploadImageResult` shape of media.js is not
among the sources; section 3 gives a remote-assigned image key. -/
structure UploadImageResult where
  imageKey : String
deriving DecidableEq, Repr

/-- Modelled from the spec: the `UploadFileResult` shape of media.js is not
among the sources; section 3 gives a remote-assigned file key. -/
structure UploadFileResult where
  fileKey : String
deriving DecidableEq, Repr

/-- Modelled from the spec: the send acknowledgement shape of media.js is
not among the sources; section 4.3 gives a message-send acknowledgement. -/
structure SendResult where
  messageId : String
deriving DecidableEq, Repr

/-- Modelled from the spec: the `DownloadImageResult` shape of media.js is
not among the sources; section 3 gives a raw byte payload (here bytes as
naturals below 256) and an optional declared content type. -/
structure DownloadImageResult where
  buffer : List Nat
  contentType : Option String
deriving DecidableEq, Repr

/-- Modelled from the spec: the `DownloadMessageResourceResult` shape of
media.js is not among the sources; section 3 adds an optional original
file name to the download payload. -/
structure DownloadMessageResourceResult where
  buffer : List Nat
  contentType : Option String
  fileName : Option String
deriving DecidableEq, Repr

/-- The structured `details` payload of a success envelope: either a remote
result passed through `json(...)`, or for the two binary downloads the
spread `\x7b ...result, dataUrl \x7d` object built inline. -/
inductive Details where
  | uploadImage (r : UploadImageResult)
  | uploadFile (r : UploadFileResult)
  | send (r : SendResult)
  | downloadImage (r : DownloadImageResult) (dataUrl : String)
  | downloadFile (r : DownloadMessageResourceResult) (dataUrl : String)
deriving DecidableEq, Repr

/-- The result envelope.  In the source this is a plain object that carries
`content` always and `details` or `error` depending on the branch; both
optional fields are modelled explicitly so that their exclusivity is a
theorem, not a typing artifact. -/
structure Envelope where
  content : List TextItem
  details : Option Details
  error : Option String
deriving DecidableEq, Repr

/-- Modelled from the spec: rendering of `JSON.stringify(data, null, 2)`
for the remote result records (whose concrete shapes live in media.js,
not among the sources).  String escaping is elided; no claim inspects
this text beyond its being the text of a text item. -/
def jsonStringifyFields (fields : List (String × String)) : String :=
  "\x7b\n" ++
    String.intercalate ",\n"
      (fields.map (fun f => "  \x22" ++ f.1 ++ "\x22: \x22" ++ f.2 ++ "\x22")) ++
    "\n\x7d"

/-- `JSON.stringify(data, null, 2)` over the possible `details` payloads.
Only the upload and send payloads ever reach `json(...)` in the source;
the download cases are included for totality. -/
def jsonStringify : Details → String
  | .uploadImage r => jsonStringifyFields [("imageKey", r.imageKey)]
  | .uploadFile r => jsonStringifyFields [("fileKey", r.fileKey)]
  | .send r => jsonStringifyFields [("messageId", r.messageId)]
  | .downloadImage _ u => jsonStringifyFields [("dataUrl", u)]
  | .downloadFile _ u => jsonStringifyFields [("dataUrl", u)]

/-- The `json` helper of the newer variant: success envelope with
pretty-printed summary text and the data as structured details. -/
def json (data : Details) : Envelope :=
  { content := [⟨"text", jsonStringify data⟩]
    details := some data
    error := none }

/-- The `errResult` helper of the newer variant: failure envelope with
summary `"Error: <message>"` and the message as the error field. -/
def errResult (err : JsValue) : Envelope :=
  { content := [⟨"text", "Error: " ++ messageOf err⟩]
    details := none
    error := some (messageOf err) }

/-- Boolean test that a pattern is an initial run of a character list;
used to model `String.startsWith` and the search step of
`String.replace`. -/
def leadMatch : List Char → List Char → Bool
  | [], _ => true
  | _ :: _, [] => false
  | p :: ps, c :: cs => p == c && leadMatch ps cs

/-- Models the JavaScript `s.startsWith(pre)` builtin. -/
def jsStartsWith (s pre : String) : Bool :=
  leadMatch pre.data s.data

/-- Replacement of the first occurrence of `pat` in a character list, the
behaviour of JavaScript `String.prototype.replace` with a string search
argument (dollar patterns in the replacement are not modelled). -/
def replaceFirstAux (pat repl : List Char) : List Char → List Char
  | [] => []
  | c :: cs =>
      if leadMatch pat (c :: cs) then repl ++ (c :: cs).drop pat.length
      else c :: replaceFirstAux pat repl cs

/-- Models the JavaScript `s.replace(pat, repl)` builtin (string search,
first occurrence only). -/
def jsReplaceFirst (s pat repl : String) : String :=
  ⟨replaceFirstAux pat.data repl.data s.data⟩

/-- Models the JavaScript truthiness fallback `x || d` for a value of type
string-or-undefined: the default is taken when `x` is undefined or the
empty string. -/
def jsOr : Option String → String → String
  | some v, d => if v = "" then d else v
  | none, d => d

/-- Models Node's `path.basename` builtin: the final path segment, with
trailing separators dropped first. -/
def basename (p : String) : String :=
  let cs := p.data.reverse.dropWhile (fun c => c == '/')
  ⟨(cs.takeWhile (fun c => c != '/')).reverse⟩

/-- The inline home-directory expansion shared by both upload pipelines:
`p.startsWith("~") ? p.replace("~", process.env.HOME ?? "") : p`. -/
def resolvePath (home : Option String) (p : String) : String :=
  if jsStartsWith p "~" then jsReplaceFirst p "~" (home.getD "") else p

/-- The 64-character base64 alphabet. -/
def b64Alphabet : List Char :=
  "ABCDEFGHIJKLMNOPQRSTUVWXYZabcdefghijklmnopqrstuvwxyz0123456789+/".data

/-- Character at a sextet value. -/
def b64Char (n : Nat) : Char :=
  b64Alphabet.getD n '?'

/-- Position of a character in a list (0 when absent; only applied to
alphabet characters). -/
def b64ValAux (c : Char) : List Char → Nat
  | [] => 0
  | a :: rest => if a == c then 0 else 1 + b64ValAux c rest

/-- Sextet value of a base64 character. -/
def b64Val (c : Char) : Nat :=
  b64ValAux c b64Alphabet

/-- Models Node's `Buffer.prototype.toString("base64")` builtin: standard
base64 with `=` padding, over bytes given as naturals below 256. -/
def base64Encode : List Nat → List Char
  | [] => []
  | [b1] => [b64Char (b1 / 4), b64Char (b1 % 4 * 16), '=', '=']
  | [b1, b2] =>
      [b64Char (b1 / 4), b64Char (b1 % 4 * 16 + b2 / 16), b64Char (b2 % 16 * 4), '=']
  | b1 :: b2 :: b3 :: rest =>
      b64Char (b1 / 4) :: b64Char (b1 % 4 * 16 + b2 / 16) ::
        b64Char (b2 % 16 * 4 + b3 / 64) :: b64Char (b3 % 64) :: base64Encode rest

/-- Standard base64 decoding (the inverse reading of the encoding above),
used to state the round-trip law. -/
def base64Decode : List Char → List Nat
  | c1 :: c2 :: c3 :: c4 :: rest =>
      if c3 = '=' then [b64Val c1 * 4 + b64Val c2 / 16]
      else if c4 = '=' then
        [b64Val c1 * 4 + b64Val c2 / 16, b64Val c2 % 16 * 16 + b64Val c3 / 4]
      else
        (b64Val c1 * 4 + b64Val c2 / 16) ::
          (b64Val c2 % 16 * 16 + b64Val c3 / 4) ::
            (b64Val c3 % 4 * 64 + b64Val c4) :: base64Decode rest
  | _ => []

/-- Extension of a file name: the portion after the last dot, empty when
the name has no dot. -/
def extOf (name : String) : String :=
  if name.data.contains '.' then
    ⟨(name.data.reverse.takeWhile (fun c => c != '.')).reverse⟩
  else ""

/-- Modelled from the spec: `detectFileType` is defined in media.js, which
is not among the sources.  Section 4.2: case-insensitive extension lookup
over the fixed table .pdf, .mp4, .opus, .doc/.docx, .xls/.xlsx,
.ppt/.pptx; unknown or missing extension gives `stream`. -/
def detectFileType (name : String) : String :=
  let ext : String := ⟨(extOf name).data.map Char.toLower⟩
  if ext = "opus" then "opus"
  else if ext = "mp4" then "mp4"
  else if ext = "pdf" then "pdf"
  else if ext = "doc" ∨ ext = "docx" then "doc"
  else if ext = "xls" ∨ ext = "xlsx" then "xls"
  else if ext = "ppt" ∨ ext = "pptx" then "ppt"
  else "stream"

/-- Process environment seen by the pipelines: `process.env.HOME` and
`fs.existsSync`. -/
structure Env where
  home : Option String
  fsExists : String → Bool

/-- Arguments of `uploadImageFeishu` (the credential wrapper built by
`buildCfg` is threaded to every primitive but never influences the
envelope; it is omitted from the modelled arguments). -/
structure UploadImageArgs where
  image : String
  imageType : String
deriving DecidableEq, Repr

/-- Arguments of `uploadFileFeishu`. -/
structure UploadFileArgs where
  file : String
  fileName : String
  fileType : String
  duration : Option Nat
deriving DecidableEq, Repr

/-- Arguments of `downloadImageFeishu`. -/
structure DownloadImageArgs where
  imageKey : Option String
deriving DecidableEq, Repr

/-- Arguments of `downloadMessageResourceFeishu`. -/
structure DownloadFileArgs where
  messageId : Option String
  fileKey : Option String
  type : String
deriving DecidableEq, Repr

/-- Arguments of `sendImageFeishu`. -/
structure SendImageArgs where
  to_ : Option String
  imageKey : Option String
  replyToMessageId : Option String
deriving DecidableEq, Repr

/-- Arguments of `sendFileFeishu`. -/
structure SendFileArgs where
  to_ : Option String
  fileKey : Option String
  replyToMessageId : Option String
deriving DecidableEq, Repr

/-- A recorded Transfer Client invocation. -/
inductive ClientCall where
  | uploadImage (args : UploadImageArgs)
  | uploadFile (args : UploadFileArgs)
  | downloadImage (args : DownloadImageArgs)
  | downloadMessageResource (args : DownloadFileArgs)
  | sendImage (args : SendImageArgs)
  | sendFile (args : SendFileArgs)
deriving DecidableEq, Repr

/-- Modelled from the spec: the six remote primitives of media.js are not
among the sources.  Each is an oracle from its arguments to either a
result or a thrown value (section 4.3). -/
structure Client where
  uploadImageFeishu : UploadImageArgs → Except JsValue UploadImageResult
  uploadFileFeishu : UploadFileArgs → Except JsValue UploadFileResult
  downloadImageFeishu : DownloadImageArgs → Except JsValue DownloadImageResult
  downloadMessageResourceFeishu : DownloadFileArgs → Except JsValue DownloadMessageResourceResult
  sendImageFeishu : SendImageArgs → Except JsValue SendResult
  sendFileFeishu : SendFileArgs → Except JsValue SendResult

/-- Parameters of `doUploadImage` / `doFeishuUploadImage`.  The call sites
guarantee a present path; `imageType` is optional with destructuring
default `"message"`. -/
structure UploadImageParams where
  path : String
  imageType : Option String := none
deriving DecidableEq, Repr

/-- Parameters of `doUploadFile` / `doFeishuUploadFile`. -/
structure UploadFileParams where
  path : String
  fileName : Option String := none
  fileType : Option String := none
  duration : Option Nat := none
deriving DecidableEq, Repr

/-- Parameters of `doDownloadImage` / `doFeishuDownloadImage`.  The entry
point forwards the raw tool input, so the key may be absent at runtime
despite the static annotation. -/
structure DownloadImageParams where
  imageKey : Option String := none
deriving DecidableEq, Repr

/-- Parameters of `doDownloadFile` / `doFeishuDownloadFile`. -/
structure DownloadFileParams where
  messageId : Option String := none
  fileKey : Option String := none
  type : Option String := none
deriving DecidableEq, Repr

/-- Parameters of `doSendImage` / `doFeishuSendImage`. -/
structure SendImageParams where
  to_ : Option String := none
  imageKey : Option String := none
  replyToMessageId : Option String := none
deriving DecidableEq, Repr

/-- Parameters of `doSendFile` / `doFeishuSendFile`. -/
structure SendFileParams where
  to_ : Option String := none
  fileKey : Option String := none
  replyToMessageId : Option String := none
deriving DecidableEq, Repr

/-- Pipeline of the newer `doUploadImage` (media-tools.ts, first variant):
home expansion, existence check, `uploadImageFeishu`, envelope; the catch
boundary converts a thrown value into `errResult`.  Returns the envelope
together with the client invocations performed. -/
def doUploadImage (env : Env) (client : Client) (params : UploadImageParams) :
    Envelope × List ClientCall :=
  let imagePath := params.path
  let imageType := params.imageType.getD "message"
  let resolvedPath := resolvePath env.home imagePath
  if ! env.fsExists resolvedPath then
    (errResult (.jsError ("Image file not found: " ++ resolvedPath)), [])
  else
    let args : UploadImageArgs := { image := resolvedPath, imageType := imageType }
    match client.uploadImageFeishu args with
    | .ok result => (json (.uploadImage result), [.uploadImage args])
    | .error e => (errResult e, [.uploadImage args])

/-- Pipeline of the newer `doUploadFile`: home expansion, existence check,
name and type defaulting (`fileName || basename`, `fileType ||
detectFileType(name)`), `uploadFileFeishu`, envelope. -/
def doUploadFile (env : Env) (client : Client) (params : UploadFileParams) :
    Envelope × List ClientCall :=
  let filePath := params.path
  let resolvedPath := resolvePath env.home filePath
  if ! env.fsExists resolvedPath then
    (errResult (.jsError ("File not found: " ++ resolvedPath)), [])
  else
    let name := jsOr params.fileName (basename resolvedPath)
    let type := jsOr params.fileType (detectFileType name)
    let args : UploadFileArgs :=
      { file := resolvedPath, fileName := name, fileType := type, duration := params.duration }
    match client.uploadFileFeishu args with
    | .ok result => (json (.uploadFile result), [.uploadFile args])
    | .error e => (errResult e, [.uploadFile args])

/-- Pipeline of the newer `doDownloadImage`: `downloadImageFeishu`, base64
data URL with `image/png` fallback, byte-count summary text. -/
def doDownloadImage (env : Env) (client : Client) (params : DownloadImageParams) :
    Envelope × List ClientCall :=
  let args : DownloadImageArgs := { imageKey := params.imageKey }
  match client.downloadImageFeishu args with
  | .ok result =>
      let base64 := String.mk (base64Encode result.buffer)
      let dataUrl := "data:" ++ jsOr result.contentType "image/png" ++ ";base64," ++ base64
      ({ content := [⟨"text",
            "Downloaded image (" ++ toString result.buffer.length ++ " bytes, type: " ++
              jsOr result.contentType "unknown" ++ ")"⟩]
         details := some (.downloadImage result dataUrl)
         error := none }, [.downloadImage args])
  | .error e => (errResult e, [.downloadImage args])

/-- Pipeline of the newer `doDownloadFile`: resource type defaulting to
`"file"`, `downloadMessageResourceFeishu`, base64 data URL with
`application/octet-stream` fallback, byte-count and file-name summary. -/
def doDownloadFile (env : Env) (client : Client) (params : DownloadFileParams) :
    Envelope × List ClientCall :=
  let type := params.type.getD "file"
  let args : DownloadFileArgs :=
    { messageId := params.messageId, fileKey := params.fileKey, type := type }
  match client.downloadMessageResourceFeishu args with
  | .ok result =>
      let base64 := String.mk (base64Encode result.buffer)
      let dataUrl :=
        "data:" ++ jsOr result.contentType "application/octet-stream" ++ ";base64," ++ base64
      ({ content := [⟨"text",
            "Downloaded file (" ++ toString result.buffer.length ++ " bytes, type: " ++
              jsOr result.contentType "unknown" ++ ", name: " ++
              jsOr result.fileName "unknown" ++ ")"⟩]
         details := some (.downloadFile result dataUrl)
         error := none }, [.downloadMessageResource args])
  | .error e => (errResult e, [.downloadMessageResource args])

/-- Pipeline of the newer `doSendImage`: `sendImageFeishu`, envelope. -/
def doSendImage (env : Env) (client : Client) (params : SendImageParams) :
    Envelope × List ClientCall :=
  let args : SendImageArgs :=
    { to_ := params.to_, imageKey := params.imageKey, replyToMessageId := params.replyToMessageId }
  match client.sendImageFeishu args with
  | .ok result => (json (.send result), [.sendImage args])
  | .error e => (errResult e, [.sendImage args])

/-- Pipeline of the newer `doSendFile`: `sendFileFeishu`, envelope. -/
def doSendFile (env : Env) (client : Client) (params : SendFileParams) :
    Envelope × List ClientCall :=
  let args : SendFileArgs :=
    { to_ := params.to_, fileKey := params.fileKey, replyToMessageId := params.replyToMessageId }
  match client.sendFileFeishu args with
  | .ok result => (json (.send result), [.sendFile args])
  | .error e => (errResult e, [.sendFile args])

/-- Raw tool-call input: the `params: any` object of an `execute` entry
point, each recognized field possibly absent. -/
structure ToolParams where
  path : Option String := none
  imageType : Option String := none
  fileName : Option String := none
  fileType : Option String := none
  duration : Option Nat := none
  imageKey : Option String := none
  messageId : Option String := none
  fileKey : Option String := none
  type : Option String := none
  to_ : Option String := none
  replyToMessageId : Option String := none
deriving DecidableEq, Repr

/-- JavaScript falsiness of a string-or-undefined value, as in
`!params.path`. -/
def falsy : Option String → Bool
  | none => true
  | some v => v == ""

/-- The `feishu_upload_image` entry point (newer variant): presence check
on `path`, then the pipeline. -/
def executeUploadImage (env : Env) (client : Client) (params : ToolParams) :
    Envelope × List ClientCall :=
  if falsy params.path then (errResult (.other "\x27path\x27 is required"), [])
  else
    doUploadImage env client
      { path := params.path.getD "", imageType := params.imageType }

/-- The `feishu_upload_file` entry point (newer variant): presence check
on `path`, then the pipeline. -/
def executeUploadFile (env : Env) (client : Client) (params : ToolParams) :
    Envelope × List ClientCall :=
  if falsy params.path then (errResult (.other "\x27path\x27 is required"), [])
  else
    doUploadFile env client
      { path := params.path.getD "", fileName := params.fileName,
        fileType := params.fileType, duration := params.duration }

/-- The `feishu_download_image` entry point (newer variant): forwards the
raw input with no presence check. -/
def executeDownloadImage (env : Env) (client : Client) (params : ToolParams) :
    Envelope × List ClientCall :=
  doDownloadImage env client { imageKey := params.imageKey }

/-- The `feishu_download_file` entry point (newer variant): forwards the
raw input with no presence check. -/
def executeDownloadFile (env : Env) (client : Client) (params : ToolParams) :
    Envelope × List ClientCall :=
  doDownloadFile env client
    { messageId := params.messageId, fileKey := params.fileKey, type := params.type }

/-- The `feishu_send_image` entry point (newer variant): forwards the raw
input with no presence check. -/
def executeSendImage (env : Env) (client : Client) (params : ToolParams) :
    Envelope × List ClientCall :=
  doSendImage env client
    { to_ := params.to_, imageKey := params.imageKey,
      replyToMessageId := params.replyToMessageId }

/-- The `feishu_send_file` entry point (newer variant): forwards the raw
input with no presence check. -/
def executeSendFile (env : Env) (client : Client) (params : ToolParams) :
    Envelope × List ClientCall :=
  doSendFile env client
    { to_ := params.to_, fileKey := params.fileKey,
      replyToMessageId := params.replyToMessageId }

/-- The six registered tools. -/
inductive ToolName where
  | uploadImage
  | uploadFile
  | downloadImage
  | downloadFile
  | sendImage
  | sendFile
deriving DecidableEq, Repr

/-- Dispatcher over the six entry points of the newer variant. -/
def runTool (env : Env) (client : Client) (tool : ToolName) (params : ToolParams) :
    Envelope × List ClientCall :=
  match tool with
  | .uploadImage => executeUploadImage env client params
  | .uploadFile => executeUploadFile env client params
  | .downloadImage => executeDownloadImage env client params
  | .downloadFile => executeDownloadFile env client params
  | .sendImage => executeSendImage env client params
  | .sendFile => executeSendFile env client params

/-- A client whose every primitive raises the given value. -/
def throwingClient (e : JsValue) : Client :=
  { uploadImageFeishu := fun _ => .error e
    uploadFileFeishu := fun _ => .error e
    downloadImageFeishu := fun _ => .error e
    downloadMessageResourceFeishu := fun _ => .error e
    sendImageFeishu := fun _ => .error e
    sendFileFeishu := fun _ => .error e }

end FeishuMedia

namespace FeishuMedia.Old

/-- The `json` helper of the older variant (identical body). -/
def json (data : Details) : Envelope :=
  { content := [⟨"text", jsonStringify data⟩]
    details := some data
    error := none }

/-- The `error` helper of the older variant (identical to `errResult`). -/
def error (err : JsValue) : Envelope :=
  { content := [⟨"text", "Error: " ++ messageOf err⟩]
    details := none
    error := some (messageOf err) }

/-- Pipeline of the older `doFeishuUploadImage`. -/
def doFeishuUploadImage (env : Env) (client : Client) (params : UploadImageParams) :
    Envelope × List ClientCall :=
  let imagePath := params.path
  let imageType := params.imageType.getD "message"
  let resolvedPath := resolvePath env.home imagePath
  if ! env.fsExists resolvedPath then
    (error (.jsError ("Image file not found: " ++ resolvedPath)), [])
  else
    let args : UploadImageArgs := { image := resolvedPath, imageType := imageType }
    match client.uploadImageFeishu args with
    | .ok result => (json (.uploadImage result), [.uploadImage args])
    | .error e => (error e, [.uploadImage args])

/-- Pipeline of the older `doFeishuUploadFile`. -/
def doFeishuUploadFile (env : Env) (client : Client) (params : UploadFileParams) :
    Envelope × List ClientCall :=
  let filePath := params.path
  let resolvedPath := resolvePath env.home filePath
  if ! env.fsExists resolvedPath then
    (error (.jsError ("File not found: " ++ resolvedPath)), [])
  else
    let name := jsOr params.fileName (basename resolvedPath)
    let type := jsOr params.fileType (detectFileType name)
    let args : UploadFileArgs :=
      { file := resolvedPath, fileName := name, fileType := type, duration := params.duration }
    match client.uploadFileFeishu args with
    | .ok result => (json (.uploadFile result), [.uploadFile args])
    | .error e => (error e, [.uploadFile args])

/-- Pipeline of the older `doFeishuDownloadImage`. -/
def doFeishuDownloadImage (env : Env) (client : Client) (params : DownloadImageParams) :
    Envelope × List ClientCall :=
  let args : DownloadImageArgs := { imageKey := params.imageKey }
  match client.downloadImageFeishu args with
  | .ok result =>
      let base64 := String.mk (base64Encode result.buffer)
      let dataUrl := "data:" ++ jsOr result.contentType "image/png" ++ ";base64," ++ base64
      ({ content := [⟨"text",
            "Downloaded image (" ++ toString result.buffer.length ++ " bytes, type: " ++
              jsOr result.contentType "unknown" ++ ")"⟩]
         details := some (.downloadImage result dataUrl)
         error := none }, [.downloadImage args])
  | .error e => (error e, [.downloadImage args])

/-- Pipeline of the older `doFeishuDownloadFile`. -/
def doFeishuDownloadFile (env : Env) (client : Client) (params : DownloadFileParams) :
    Envelope × List ClientCall :=
  let type := params.type.getD "file"
  let args : DownloadFileArgs :=
    { messageId := params.messageId, fileKey := params.fileKey, type := type }
  match client.downloadMessageResourceFeishu args with
  | .ok result =>
      let base64 := String.mk (base64Encode result.buffer)
      let dataUrl :=
        "data:" ++ jsOr result.contentType "application/octet-stream" ++ ";base64," ++ base64
      ({ content := [⟨"text",
            "Downloaded file (" ++ toString result.buffer.length ++ " bytes, type: " ++
              jsOr result.contentType "unknown" ++ ", name: " ++
              jsOr result.fileName "unknown" ++ ")"⟩]
         details := some (.downloadFile result dataUrl)
         error := none }, [.downloadMessageResource args])
  | .error e => (error e, [.downloadMessageResource args])

/-- Pipeline of the older `doFeishuSendImage`. -/
def doFeishuSendImage (env : Env) (client : Client) (params : SendImageParams) :
    Envelope × List ClientCall :=
  let args : SendImageArgs :=
    { to_ := params.to_, imageKey := params.imageKey, replyToMessageId := params.replyToMessageId }
  match client.sendImageFeishu args with
  | .ok result => (json (.send result), [.sendImage args])
  | .error e => (error e, [.sendImage args])

/-- Pipeline of the older `doFeishuSendFile`. -/
def doFeishuSendFile (env : Env) (client : Client) (params : SendFileParams) :
    Envelope × List ClientCall :=
  let args : SendFileArgs :=
    { to_ := params.to_, fileKey := params.fileKey, replyToMessageId := params.replyToMessageId }
  match client.sendFileFeishu args with
  | .ok result => (json (.send result), [.sendFile args])
  | .error e => (error e, [.sendFile args])

end FeishuMedia.Old

namespace FeishuMedia

/-- An environment where every path exists and the home directory is set. -/
def envEx : Env :=
  { home := some "/home/user", fsExists := fun _ => true }

/-- An environment where no path exists. -/
def noFileEnv : Env :=
  { home := some "/h", fsExists := fun _ => false }

/-- A stub client whose every primitive succeeds with a fixed result. -/
def okClient : Client :=
  { uploadImageFeishu := fun _ => .ok ⟨"img_key_1"⟩
    uploadFileFeishu := fun _ => .ok ⟨"file_key_1"⟩
    downloadImageFeishu := fun _ => .ok ⟨[1, 2, 3], some "image/png"⟩
    downloadMessageResourceFeishu := fun _ => .ok ⟨[1, 2, 3], some "text/plain", some "a.txt"⟩
    sendImageFeishu := fun _ => .ok ⟨"om_1"⟩
    sendFileFeishu := fun _ => .ok ⟨"om_2"⟩ }

/-- A stub client whose image download declares an empty-string content
type. -/
def emptyCtClient : Client :=
  { okClient with downloadImageFeishu := fun _ => .ok ⟨[1, 2, 3], some ""⟩ }

/-- A 17-byte payload, matching the byte count of the specification's
download scenario. -/
def seventeenBytes : List Nat :=
  [10, 20, 30, 40, 50, 60, 70, 80, 90, 100, 110, 120, 130, 140, 150, 160, 170]

/-- A stub client whose image download returns the 17-byte payload with a
declared `image/png` content type. -/
def seventeenClient : Client :=
  { okClient with downloadImageFeishu := fun _ => .ok ⟨seventeenBytes, some "image/png"⟩ }

/-- Well-formedness of a result envelope: exactly one of the details and
error fields is present, and the content list starts with a text item. -/
def envelopeOk (E : Envelope) : Prop :=
  ((E.details.isSome = true ∧ E.error = none) ∨ (E.details = none ∧ E.error.isSome = true)) ∧
    ∃ t, E.content.head? = some ⟨"text", t⟩

end FeishuMedia

namespace FeishuMedia

/-- Decoding a base64 alphabet character produced from a sextet value
recovers that value. -/
theorem b64Val_b64Char : ∀ n, n < 64 → b64Val (b64Char n) = n := by decide

/-- Alphabet characters are never the padding character. -/
theorem b64Char_ne_pad : ∀ n, n < 64 → b64Char n ≠ '=' := by decide

/-- Base64 round trip: decoding an encoded byte list recovers it. -/
theorem base64_decode_encode :
    ∀ bs : List Nat, (∀ b ∈ bs, b < 256) → base64Decode (base64Encode bs) = bs
  | [], _ => rfl
  | [b1], h => by
      have hb1 : b1 < 256 := h b1 (by simp)
      simp only [base64Encode, base64Decode]
      rw [if_pos trivial]
      rw [b64Val_b64Char _ (by omega), b64Val_b64Char _ (by omega)]
      simp only [List.cons.injEq, and_true]
      omega
  | [b1, b2], h => by
      have hb1 : b1 < 256 := h b1 (by simp)
      have hb2 : b2 < 256 := h b2 (by simp)
      simp only [base64Encode, base64Decode]
      rw [if_neg (b64Char_ne_pad _ (by omega))]
      rw [if_pos trivial]
      rw [b64Val_b64Char _ (by omega), b64Val_b64Char _ (by omega),
        b64Val_b64Char _ (by omega)]
      simp only [List.cons.injEq, and_true]
      omega
  | b1 :: b2 :: b3 :: rest, h => by
      have hb1 : b1 < 256 := h b1 (by simp)
      have hb2 : b2 < 256 := h b2 (by simp)
      have hb3 : b3 < 256 := h b3 (by simp)
      have ih := base64_decode_encode rest (fun b hb => h b (by simp [hb]))
      simp only [base64Encode, base64Decode]
      rw [if_neg (b64Char_ne_pad _ (by omega))]
      rw [if_neg (b64Char_ne_pad _ (by omega))]
      rw [b64Val_b64Char _ (by omega), b64Val_b64Char _ (by omega),
        b64Val_b64Char _ (by omega), b64Val_b64Char _ (by omega)]
      simp only [List.cons.injEq]
      refine ⟨by omega, by omega, by omega, ih⟩

/-- The `json` helper always builds a well-formed success envelope. -/
theorem envelopeOk_json (d : Details) : envelopeOk (json d) :=
  ⟨Or.inl ⟨rfl, rfl⟩, jsonStringify d, rfl⟩

/-- The `errResult` helper always builds a well-formed failure envelope. -/
theorem envelopeOk_errResult (e : JsValue) : envelopeOk (errResult e) :=
  ⟨Or.inr ⟨rfl, rfl⟩, "Error: " ++ messageOf e, rfl⟩

/-- Every envelope out of the upload-image pipeline is well formed. -/
theorem envelopeOk_doUploadImage (env : Env) (client : Client) (p : UploadImageParams) :
    envelopeOk (doUploadImage env client p).1 := by
  simp only [doUploadImage]
  split
  · exact envelopeOk_errResult _
  · split
    · exact envelopeOk_json _
    · exact envelopeOk_errResult _

/-- Every envelope out of the upload-file pipeline is well formed. -/
theorem envelopeOk_doUploadFile (env : Env) (client : Client) (p : UploadFileParams) :
    envelopeOk (doUploadFile env client p).1 := by
  simp only [doUploadFile]
  split
  · exact envelopeOk_errResult _
  · split
    · exact envelopeOk_json _
    · exact envelopeOk_errResult _

/-- Every envelope out of the download-image pipeline is well formed. -/
theorem envelopeOk_doDownloadImage (env : Env) (client : Client) (p : DownloadImageParams) :
    envelopeOk (doDownloadImage env client p).1 := by
  simp only [doDownloadImage]
  split
  · exact ⟨Or.inl ⟨rfl, rfl⟩, _, rfl⟩
  · exact envelopeOk_errResult _

/-- Every envelope out of the download-file pipeline is well formed. -/
theorem envelopeOk_doDownloadFile (env : Env) (client : Client) (p : DownloadFileParams) :
    envelopeOk (doDownloadFile env client p).1 := by
  simp only [doDownloadFile]
  split
  · exact ⟨Or.inl ⟨rfl, rfl⟩, _, rfl⟩
  · exact envelopeOk_errResult _

/-- Every envelope out of the send-image pipeline is well formed. -/
theorem envelopeOk_doSendImage (env : Env) (client : Client) (p : SendImageParams) :
    envelopeOk (doSendImage env client p).1 := by
  simp only [doSendImage]
  split
  · exact envelopeOk_json _
  · exact envelopeOk_errResult _

/-- Every envelope out of the send-file pipeline is well formed. -/
theorem envelopeOk_doSendFile (env : Env) (client : Client) (p : SendFileParams) :
    envelopeOk (doSendFile env client p).1 := by
  simp only [doSendFile]
  split
  · exact envelopeOk_json _
  · exact envelopeOk_errResult _

/-- C1 (counterexample): the claim fails on the code.  Calling the
feishu_download_image entry point with the mandatory imageKey absent does
not short-circuit to a missing-parameter failure: the Transfer Client
primitive is invoked (with an undefined key) and, here, a success envelope
is returned. -/
theorem claim1_counterexample :
    (runTool envEx okClient .downloadImage {}).2 =
      [ClientCall.downloadImage { imageKey := none }] ∧
    (runTool envEx okClient .downloadImage {}).1.error = none := by
  constructor <;> decide

/-- C1 (amended): only the two upload entry points perform presence
validation on their mandatory field (path), short-circuiting to the fixed
failure envelope before any Path Resolver or Transfer Client involvement;
the download and send entry points forward their raw parameters to the
pipeline with no presence check. -/
theorem claim1_amended_entry_validation (env : Env) (client : Client) (params : ToolParams)
    (h : params.path = none) :
    runTool env client .uploadImage params =
      (errResult (.other "\x27path\x27 is required"), []) ∧
    runTool env client .uploadFile params =
      (errResult (.other "\x27path\x27 is required"), []) ∧
    runTool env client .downloadImage params =
      doDownloadImage env client { imageKey := params.imageKey } ∧
    runTool env client .downloadFile params =
      doDownloadFile env client
        { messageId := params.messageId, fileKey := params.fileKey, type := params.type } ∧
    runTool env client .sendImage params =
      doSendImage env client
        { to_ := params.to_, imageKey := params.imageKey,
          replyToMessageId := params.replyToMessageId } ∧
    runTool env client .sendFile params =
      doSendFile env client
        { to_ := params.to_, fileKey := params.fileKey,
          replyToMessageId := params.replyToMessageId } := by
  refine ⟨?_, ?_, rfl, rfl, rfl, rfl⟩ <;>
    simp [runTool, executeUploadImage, executeUploadFile, h, falsy]

/-- C1 (witness): the amended statement at a concrete absent path. -/
theorem claim1_witness :
    runTool envEx okClient .uploadImage {} =
      (errResult (.other "\x27path\x27 is required"), []) ∧
    runTool envEx okClient .uploadFile {} =
      (errResult (.other "\x27path\x27 is required"), []) ∧
    runTool envEx okClient .downloadImage {} =
      doDownloadImage envEx okClient { imageKey := none } ∧
    runTool envEx okClient .downloadFile {} =
      doDownloadFile envEx okClient { messageId := none, fileKey := none, type := none } ∧
    runTool envEx okClient .sendImage {} =
      doSendImage envEx okClient
        { to_ := none, imageKey := none, replyToMessageId := none } ∧
    runTool envEx okClient .sendFile {} =
      doSendFile envEx okClient
        { to_ := none, fileKey := none, replyToMessageId := none } :=
  claim1_amended_entry_validation envEx okClient {} rfl

/-- C2 (counterexample): the claim fails on the code.  The resolver
replaces only the first tilde, so for an input beginning with the tilde
shorthand whose remainder holds another tilde, the resolved path still
contains a literal tilde. -/
theorem claim2_counterexample :
    jsStartsWith "~/a~b.txt" "~" = true ∧
    '~' ∈ (resolvePath (some "/home/user") "~/a~b.txt").data := by
  constructor <;> decide

/-- C2 (amended): for every input path beginning with the tilde shorthand,
the resolved path is the home value (empty string when undefined) followed
by the input's remainder after the leading tilde; hence it contains no
literal tilde whenever neither the home value nor that remainder does. -/
theorem claim2_amended_tilde_expansion (home : Option String) (p : String) (rest : List Char)
    (hp : p.data = '~' :: rest) :
    (resolvePath home p).data = (home.getD "").data ++ rest ∧
    ('~' ∉ (home.getD "").data → '~' ∉ rest → '~' ∉ (resolvePath home p).data) := by
  have htilde : ("~" : String).data = ['~'] := rfl
  have hstart : jsStartsWith p "~" = true := by
    simp [jsStartsWith, hp, htilde, leadMatch]
  have hres : (resolvePath home p).data = (home.getD "").data ++ rest := by
    simp [resolvePath, hstart, jsReplaceFirst, hp, htilde, replaceFirstAux, leadMatch]
  refine ⟨hres, fun h1 h2 => ?_⟩
  rw [hres]
  simp only [List.mem_append]
  rintro (hc | hc)
  · exact h1 hc
  · exact h2 hc

/-- C2 (witness): the amended statement at a concrete tilde path. -/
theorem claim2_witness :
    (resolvePath (some "/h") "~/x").data = ((some "/h").getD "").data ++ ['/', 'x'] ∧
    ('~' ∉ ((some "/h").getD "").data → '~' ∉ ['/', 'x'] →
      '~' ∉ (resolvePath (some "/h") "~/x").data) :=
  claim2_amended_tilde_expansion (some "/h") "~/x" ['/', 'x'] (by decide)

/-- C3: for both binary downloads and every byte payload the Transfer
Client can return, the base64 portion of the produced data URL decodes
byte for byte to the original payload. -/
theorem claim3_base64_roundtrip (env : Env) (client : Client)
    (dp : DownloadImageParams) (fp : DownloadFileParams)
    (ri : DownloadImageResult) (rf : DownloadMessageResourceResult)
    (hi : client.downloadImageFeishu { imageKey := dp.imageKey } = .ok ri)
    (hf : client.downloadMessageResourceFeishu
      { messageId := fp.messageId, fileKey := fp.fileKey, type := fp.type.getD "file" } = .ok rf)
    (hbi : ∀ b ∈ ri.buffer, b < 256) (hbf : ∀ b ∈ rf.buffer, b < 256) :
    (∃ payload : List Char,
      (doDownloadImage env client dp).1.details =
        some (.downloadImage ri
          ("data:" ++ jsOr ri.contentType "image/png" ++ ";base64," ++ String.mk payload)) ∧
      base64Decode payload = ri.buffer) ∧
    (∃ payload : List Char,
      (doDownloadFile env client fp).1.details =
        some (.downloadFile rf
          ("data:" ++ jsOr rf.contentType "application/octet-stream" ++ ";base64," ++
            String.mk payload)) ∧
      base64Decode payload = rf.buffer) := by
  constructor
  · exact ⟨base64Encode ri.buffer, by simp [doDownloadImage, hi],
      base64_decode_encode _ hbi⟩
  · exact ⟨base64Encode rf.buffer, by simp [doDownloadFile, hf],
      base64_decode_encode _ hbf⟩

/-- C3 (witness): the round trip at a concrete client and payload. -/
theorem claim3_witness :
    (∃ payload : List Char,
      (doDownloadImage envEx okClient { imageKey := some "k" }).1.details =
        some (.downloadImage ⟨[1, 2, 3], some "image/png"⟩
          ("data:" ++ jsOr (some "image/png") "image/png" ++ ";base64," ++
            String.mk payload)) ∧
      base64Decode payload = [1, 2, 3]) ∧
    (∃ payload : List Char,
      (doDownloadFile envEx okClient { messageId := some "m", fileKey := some "f" }).1.details =
        some (.downloadFile ⟨[1, 2, 3], some "text/plain", some "a.txt"⟩
          ("data:" ++ jsOr (some "text/plain") "application/octet-stream" ++ ";base64," ++
            String.mk payload)) ∧
      base64Decode payload = [1, 2, 3]) :=
  claim3_base64_roundtrip envEx okClient { imageKey := some "k" }
    { messageId := some "m", fileKey := some "f" }
    ⟨[1, 2, 3], some "image/png"⟩ ⟨[1, 2, 3], some "text/plain", some "a.txt"⟩
    rfl rfl (by decide) (by decide)

/-- C4: for every operation and every value thrown by a Transfer Client
primitive (an Error or any other value), and likewise for the failures the
pipeline produces before reaching the client, the operation returns a
failure envelope whose content text is exactly Error-colon-space followed
by the failure message, whose error field is that message, and which has
no details; when the client was actually invoked the message is the thrown
value's message. -/
theorem claim4_failure_envelope (env : Env) (tool : ToolName) (params : ToolParams)
    (e : JsValue) :
    ∃ m, (runTool env (throwingClient e) tool params).1 =
        { content := [⟨"text", "Error: " ++ m⟩], details := none, error := some m } ∧
      ((runTool env (throwingClient e) tool params).2 ≠ [] → m = messageOf e) := by
  cases tool
  case uploadImage =>
    by_cases hp : falsy params.path
    · refine ⟨"\x27path\x27 is required", ?_, ?_⟩ <;>
        simp [runTool, executeUploadImage, hp, errResult, messageOf]
    · by_cases hex : env.fsExists (resolvePath env.home (params.path.getD "")) = true
      · refine ⟨messageOf e, ?_, fun _ => rfl⟩
        simp [runTool, executeUploadImage, hp, doUploadImage, hex, throwingClient,
          errResult]
      · refine ⟨"Image file not found: " ++ resolvePath env.home (params.path.getD ""),
          ?_, ?_⟩ <;>
          simp [runTool, executeUploadImage, hp, doUploadImage,
            Bool.eq_false_iff.mpr hex, errResult, messageOf]
  case uploadFile =>
    by_cases hp : falsy params.path
    · refine ⟨"\x27path\x27 is required", ?_, ?_⟩ <;>
        simp [runTool, executeUploadFile, hp, errResult, messageOf]
    · by_cases hex : env.fsExists (resolvePath env.home (params.path.getD "")) = true
      · refine ⟨messageOf e, ?_, fun _ => rfl⟩
        simp [runTool, executeUploadFile, hp, doUploadFile, hex, throwingClient,
          errResult]
      · refine ⟨"File not found: " ++ resolvePath env.home (params.path.getD ""),
          ?_, ?_⟩ <;>
          simp [runTool, executeUploadFile, hp, doUploadFile,
            Bool.eq_false_iff.mpr hex, errResult, messageOf]
  case downloadImage => exact ⟨messageOf e, rfl, fun _ => rfl⟩
  case downloadFile => exact ⟨messageOf e, rfl, fun _ => rfl⟩
  case sendImage => exact ⟨messageOf e, rfl, fun _ => rfl⟩
  case sendFile => exact ⟨messageOf e, rfl, fun _ => rfl⟩

/-- C4 (witness): a concrete thrown value through a concrete operation. -/
theorem claim4_witness :
    ∃ m, (runTool envEx (throwingClient (.jsError "remote rejected"))
          .sendImage { to_ := some "oc_1", imageKey := some "k" }).1 =
        { content := [⟨"text", "Error: " ++ m⟩], details := none, error := some m } ∧
      ((runTool envEx (throwingClient (.jsError "remote rejected"))
          .sendImage { to_ := some "oc_1", imageKey := some "k" }).2 ≠ [] →
        m = messageOf (.jsError "remote rejected")) :=
  claim4_failure_envelope envEx .sendImage { to_ := some "oc_1", imageKey := some "k" }
    (.jsError "remote rejected")

/-- C5: every envelope returned by any of the six operations, on every
input and every Transfer Client outcome, carries exactly one of the
details and error fields, and its content list starts with a text item. -/
theorem claim5_envelope_exclusive (env : Env) (client : Client) (tool : ToolName)
    (params : ToolParams) :
    envelopeOk (runTool env client tool params).1 := by
  cases tool
  case uploadImage =>
    simp only [runTool, executeUploadImage]
    split
    · exact envelopeOk_errResult _
    · exact envelopeOk_doUploadImage _ _ _
  case uploadFile =>
    simp only [runTool, executeUploadFile]
    split
    · exact envelopeOk_errResult _
    · exact envelopeOk_doUploadFile _ _ _
  case downloadImage =>
    exact envelopeOk_doDownloadImage env client { imageKey := params.imageKey }
  case downloadFile =>
    exact envelopeOk_doDownloadFile env client
      { messageId := params.messageId, fileKey := params.fileKey, type := params.type }
  case sendImage =>
    exact envelopeOk_doSendImage env client
      { to_ := params.to_, imageKey := params.imageKey,
        replyToMessageId := params.replyToMessageId }
  case sendFile =>
    exact envelopeOk_doSendFile env client
      { to_ := params.to_, fileKey := params.fileKey,
        replyToMessageId := params.replyToMessageId }

end FeishuMedia

namespace FeishuMedia

/-- C6 (counterexample): the claim fails on the code.  When the remote
service declares an empty-string content type, the data URL does not use
the declared value: the JavaScript truthiness fallback substitutes the
image/png default instead. -/
theorem claim6_counterexample :
    (doDownloadImage envEx emptyCtClient { imageKey := some "k" }).1.details =
      some (.downloadImage ⟨[1, 2, 3], some ""⟩ "data:image/png;base64,AQID") ∧
    "data:image/png;base64,AQID" ≠ "data:" ++ "" ++ ";base64," ++ "AQID" := by
  constructor <;> decide

/-- C6 (amended): for every successful binary download the data URL is
data-colon, then the declared content type when it is non-empty — with an
absent or empty declaration falling back to image/png for image downloads
and application/octet-stream for attachment downloads — then
semicolon-base64-comma and the base64 payload; and the summary text states
the payload's byte count (and for attachments the file name). -/
theorem claim6_amended_dataurl (env : Env) (client : Client)
    (dp : DownloadImageParams) (fp : DownloadFileParams)
    (ri : DownloadImageResult) (rf : DownloadMessageResourceResult)
    (hi : client.downloadImageFeishu { imageKey := dp.imageKey } = .ok ri)
    (hf : client.downloadMessageResourceFeishu
      { messageId := fp.messageId, fileKey := fp.fileKey, type := fp.type.getD "file" } = .ok rf) :
    (doDownloadImage env client dp).1 =
      { content := [⟨"text",
          "Downloaded image (" ++ toString ri.buffer.length ++ " bytes, type: " ++
            jsOr ri.contentType "unknown" ++ ")"⟩]
        details := some (.downloadImage ri
          ("data:" ++ jsOr ri.contentType "image/png" ++ ";base64," ++
            String.mk (base64Encode ri.buffer)))
        error := none } ∧
    (doDownloadFile env client fp).1 =
      { content := [⟨"text",
          "Downloaded file (" ++ toString rf.buffer.length ++ " bytes, type: " ++
            jsOr rf.contentType "unknown" ++ ", name: " ++ jsOr rf.fileName "unknown" ++ ")"⟩]
        details := some (.downloadFile rf
          ("data:" ++ jsOr rf.contentType "application/octet-stream" ++ ";base64," ++
            String.mk (base64Encode rf.buffer)))
        error := none } := by
  constructor
  · simp [doDownloadImage, hi]
  · simp [doDownloadFile, hf]

/-- C6 (witness): the specification's 17-byte scenario — the summary text
contains "17 bytes" and the data URL carries the declared image/png type. -/
theorem claim6_witness :
    (doDownloadImage envEx seventeenClient { imageKey := some "img_123" }).1.content =
      [⟨"text", "Downloaded image (17 bytes, type: image/png)"⟩] ∧
    (doDownloadImage envEx seventeenClient { imageKey := some "img_123" }).1.details =
      some (.downloadImage ⟨seventeenBytes, some "image/png"⟩
        ("data:image/png;base64," ++ String.mk (base64Encode seventeenBytes))) := by
  have h := claim6_amended_dataurl envEx seventeenClient { imageKey := some "img_123" } {}
    ⟨seventeenBytes, some "image/png"⟩ ⟨[1, 2, 3], some "text/plain", some "a.txt"⟩ rfl rfl
  rw [h.1]
  exact ⟨by decide, by decide⟩

/-- C7 (counterexample): the claim fails on the code.  An explicitly
supplied empty-string fileType is not passed unchanged to the Transfer
Client: the truthiness fallback replaces it with the inferred type. -/
theorem claim7_counterexample :
    (doUploadFile envEx okClient { path := "/tmp/report.pdf", fileType := some "" }).2 =
      [ClientCall.uploadFile
        { file := "/tmp/report.pdf", fileName := "report.pdf",
          fileType := "pdf", duration := none }] ∧
    ("pdf" : String) ≠ "" := by
  constructor <;> decide

/-- C7 (amended): for every upload_file call reaching the Transfer Client,
the client receives the resolved path, the effective name (supplied
fileName when non-empty, else the base name of the resolved path) and the
duration unchanged; a supplied non-empty fileType is passed unchanged,
while an absent or empty fileType is replaced by detectFileType applied to
the effective name. -/
theorem claim7_amended_filetype (env : Env) (client : Client) (params : UploadFileParams)
    (h : env.fsExists (resolvePath env.home params.path) = true) :
    ∃ args : UploadFileArgs,
      (doUploadFile env client params).2 = [.uploadFile args] ∧
      args.file = resolvePath env.home params.path ∧
      args.fileName = jsOr params.fileName (basename (resolvePath env.home params.path)) ∧
      args.duration = params.duration ∧
      (∀ t, params.fileType = some t → t ≠ "" → args.fileType = t) ∧
      ((params.fileType = none ∨ params.fileType = some "") →
        args.fileType = detectFileType args.fileName) := by
  refine ⟨{ file := resolvePath env.home params.path
            fileName := jsOr params.fileName (basename (resolvePath env.home params.path))
            fileType := jsOr params.fileType (detectFileType
              (jsOr params.fileName (basename (resolvePath env.home params.path))))
            duration := params.duration }, ?_, rfl, rfl, rfl, ?_, ?_⟩
  · simp only [doUploadFile, h, Bool.not_true, Bool.false_eq_true, if_false]
    split <;> rfl
  · intro t ht hne
    simp [jsOr, ht, hne]
  · rintro (ht | ht) <;> simp [jsOr, ht]

/-- C7 (witness): the specification's scenario — uploading /tmp/report.pdf
with no explicit fileType invokes the Transfer Client with fileType pdf. -/
theorem claim7_witness :
    (doUploadFile envEx okClient { path := "/tmp/report.pdf" }).2 =
      [ClientCall.uploadFile
        { file := "/tmp/report.pdf", fileName := "report.pdf",
          fileType := "pdf", duration := none }] ∧
    (∃ args : UploadFileArgs,
      (doUploadFile envEx okClient { path := "/tmp/report.pdf" }).2 = [.uploadFile args] ∧
      args.file = resolvePath envEx.home "/tmp/report.pdf" ∧
      args.fileName = jsOr none (basename (resolvePath envEx.home "/tmp/report.pdf")) ∧
      args.duration = none ∧
      (∀ t, (none : Option String) = some t → t ≠ "" → args.fileType = t) ∧
      (((none : Option String) = none ∨ (none : Option String) = some "") →
        args.fileType = detectFileType args.fileName)) :=
  ⟨by decide, claim7_amended_filetype envEx okClient { path := "/tmp/report.pdf" } rfl⟩

/-- C8: when the resolved path of an upload does not exist, the operation
fails with an envelope whose error message is the fixed not-found prefix
followed by the resolved (post-expansion) path, and no Transfer Client
primitive is invoked. -/
theorem claim8_missing_file (env : Env) (client : Client)
    (ip : UploadImageParams) (fp : UploadFileParams)
    (hi : env.fsExists (resolvePath env.home ip.path) = false)
    (hf : env.fsExists (resolvePath env.home fp.path) = false) :
    doUploadImage env client ip =
      (errResult (.jsError ("Image file not found: " ++ resolvePath env.home ip.path)), []) ∧
    doUploadFile env client fp =
      (errResult (.jsError ("File not found: " ++ resolvePath env.home fp.path)), []) := by
  constructor
  · simp [doUploadImage, hi]
  · simp [doUploadFile, hf]

/-- C8 (witness): a tilde path on a filesystem with no files — the error
message carries the expanded path, not the user-supplied one. -/
theorem claim8_witness :
    (doUploadImage noFileEnv okClient { path := "~/a.png" }).1.error =
      some "Image file not found: /h/a.png" ∧
    (doUploadImage noFileEnv okClient { path := "~/a.png" }).2 = [] ∧
    (doUploadFile noFileEnv okClient { path := "~/b.pdf" }).1.error =
      some "File not found: /h/b.pdf" ∧
    (doUploadFile noFileEnv okClient { path := "~/b.pdf" }).2 = [] := by
  have h := claim8_missing_file noFileEnv okClient { path := "~/a.png" } { path := "~/b.pdf" }
    rfl rfl
  rw [h.1, h.2]
  exact ⟨by decide, rfl, by decide, rfl⟩

/-- C9: when the optional field is omitted, upload_image invokes the
Transfer Client with imageType message, and download_file invokes it with
resource type file. -/
theorem claim9_defaults (env : Env) (client : Client)
    (ip : UploadImageParams) (fp : DownloadFileParams)
    (hit : ip.imageType = none) (hft : fp.type = none)
    (hex : env.fsExists (resolvePath env.home ip.path) = true) :
    (doUploadImage env client ip).2 =
      [.uploadImage { image := resolvePath env.home ip.path, imageType := "message" }] ∧
    (doDownloadFile env client fp).2 =
      [.downloadMessageResource
        { messageId := fp.messageId, fileKey := fp.fileKey, type := "file" }] := by
  constructor
  · simp only [doUploadImage, hit, Option.getD_none, hex, Bool.not_true,
      Bool.false_eq_true, if_false]
    split <;> rfl
  · simp only [doDownloadFile, hft, Option.getD_none]
    split <;> rfl

/-- C9 (witness): the defaults at concrete omitted fields. -/
theorem claim9_witness :
    (doUploadImage envEx okClient { path := "/a.png" }).2 =
      [ClientCall.uploadImage { image := "/a.png", imageType := "message" }] ∧
    (doDownloadFile envEx okClient {}).2 =
      [ClientCall.downloadMessageResource
        { messageId := none, fileKey := none, type := "file" }] := by
  have h := claim9_defaults envEx okClient { path := "/a.png" } {} rfl rfl rfl
  rw [h.1, h.2]
  exact ⟨by decide, by decide⟩

/-- C10: on every input, every environment and every outcome of the
underlying media primitives, each pipeline function of the newer facade
variant returns exactly the result of its counterpart in the older facade
variant. -/
theorem claim10_variant_equivalence (env : Env) (client : Client)
    (p1 : UploadImageParams) (p2 : UploadFileParams) (p3 : DownloadImageParams)
    (p4 : DownloadFileParams) (p5 : SendImageParams) (p6 : SendFileParams) :
    doUploadImage env client p1 = Old.doFeishuUploadImage env client p1 ∧
    doUploadFile env client p2 = Old.doFeishuUploadFile env client p2 ∧
    doDownloadImage env client p3 = Old.doFeishuDownloadImage env client p3 ∧
    doDownloadFile env client p4 = Old.doFeishuDownloadFile env client p4 ∧
    doSendImage env client p5 = Old.doFeishuSendImage env client p5 ∧
    doSendFile env client p6 = Old.doFeishuSendFile env client p6 :=
  ⟨rfl, rfl, rfl, rfl, rfl, rfl⟩

end FeishuMedia
